import Mathlib

/-!
Verification of the BurgerWinds weather-dashboard core logic.

The definitions below are a shallow embedding of the TypeScript source:
numeric values are modelled as rationals (`ℚ`), JavaScript's `Math.round`,
`%` remainder, array indexing and string building are modelled explicitly,
and fallible platform collaborators (`Date` parsing, `Intl` time
formatting, `JSON.parse`, `localStorage.getItem`) are passed in as explicit
function parameters.
-/

/-! ## JavaScript numeric semantics helpers -/

/-- Truncation toward zero of a rational, as JavaScript's implicit integer
division in the `%` remainder operator (sign follows the dividend). -/
def ratTrunc (q : ℚ) : ℤ :=
  if 0 ≤ q then ⌊q⌋ else ⌈q⌉

/-- JavaScript's `%` remainder on numbers: `a - b * trunc(a / b)`. -/
def jsMod (a b : ℚ) : ℚ :=
  a - b * (ratTrunc (a / b) : ℚ)

/-- JavaScript's `Math.round`: nearest integer, ties toward `+∞`. -/
def jsRound (q : ℚ) : ℤ :=
  ⌊q + 1/2⌋

/-- JavaScript's `x || 0` applied to a number: `0` when the number is
falsy (zero), otherwise the number itself (NaN is outside the model). -/
def jsOrZero (q : ℚ) : ℚ :=
  if q = 0 then 0 else q

/-- Truthiness of an optional numeric field, as JavaScript sees it:
`undefined` and `0` are falsy, every other number is truthy
(NaN is outside the rational model). -/
def truthyOpt (o : Option ℚ) : Bool :=
  match o with
  | none => false
  | some q => q != 0

/-- JavaScript's `Number.toFixed(1)`: round to one decimal, ties toward
the larger value, rendered with exactly one digit after the point. -/
def jsToFixed1 (q : ℚ) : String :=
  let n : ℤ := ⌊10 * q + 1/2⌋
  let a : ℕ := n.natAbs
  let s := toString (a / 10) ++ "." ++ toString (a % 10)
  if n < 0 then "-" ++ s else s

/-! ## src/lib/format.ts -/

inductive WindUnit where
  | kmh
  | kts
  | mps
deriving DecidableEq, Repr

inductive TemperatureUnit where
  | celsius
  | fahrenheit
  | kelvin
deriving DecidableEq, Repr

def kmhToKts (kmh : ℚ) : ℚ := kmh / 1.852

def kmhToMps (kmh : ℚ) : ℚ := kmh / 3.6

def celsiusToFahrenheit (celsius : ℚ) : ℚ := (celsius * 9 / 5) + 32

def celsiusToKelvin (celsius : ℚ) : ℚ := celsius + 273.15

def formatWindSpeed (valueKmh : ℚ) (unit : WindUnit) : String :=
  match unit with
  | .kts => toString (jsRound (kmhToKts valueKmh)) ++ " kt"
  | .mps => toString (jsRound (kmhToMps valueKmh)) ++ " m/s"
  | .kmh => toString (jsRound valueKmh) ++ " km/h"

def formatTemperature (valueCelsius : ℚ) (unit : TemperatureUnit) : String :=
  match unit with
  | .fahrenheit => toString (jsRound (celsiusToFahrenheit valueCelsius)) ++ "°F"
  | .kelvin => toString (jsRound (celsiusToKelvin valueCelsius)) ++ "K"
  | .celsius => toString (jsRound valueCelsius) ++ "°C"

def formatTemperatureForDisplay (valueCelsius : ℚ) (unit : TemperatureUnit) : String :=
  match unit with
  | .fahrenheit => toString (jsRound (celsiusToFahrenheit valueCelsius)) ++ "°"
  | .kelvin => toString (jsRound (celsiusToKelvin valueCelsius))
  | .celsius => toString (jsRound valueCelsius) ++ "°"

/-- The 16 compass point labels of `degToCompass`, in source order. -/
def compassDirs : List String :=
  ["N", "NNE", "NE", "ENE", "E", "ESE", "SE", "SSE",
   "S", "SSW", "SW", "WSW", "W", "WNW", "NW", "NNW"]

/-- Embedding of `degToCompass` from src/lib/format.ts:
`dirs[Math.round((deg % 360) / 22.5) % 16]`.  JavaScript array indexing
with a negative index yields `undefined`, modelled here as `none`. -/
def degToCompass (deg : ℚ) : Option String :=
  let idx : ℤ := (jsRound (jsMod deg 360 / 22.5)).tmod 16
  if 0 ≤ idx then compassDirs[idx.toNat]? else none

/-- Rendering of `degToCompass` as it appears inside a template literal: JavaScript
prints `undefined` for an out-of-range array access. -/
def degToCompassStr (deg : ℚ) : String :=
  (degToCompass deg).getD "undefined"

/-! ## src/lib/openMeteo.ts — data model -/

/-- Record `ForecastHour`: one hour of merged forecast+marine data.  Optional
fields are `none` exactly when the upstream value was `undefined`. -/
structure ForecastHour where
  time : String
  windSpeed10mKmh : ℚ
  windGusts10mKmh : Option ℚ := none
  windDirection10mDeg : ℚ
  temperatureC : ℚ
  humidityPct : ℚ
  cloudCoverPct : ℚ
  precipitationProbabilityPct : Option ℚ := none
  precipitationMm : Option ℚ := none
  pressureMslHpa : Option ℚ := none
  visibilityM : Option ℚ := none
  waveHeightM : Option ℚ := none
  waveDirectionDeg : Option ℚ := none
  wavePeriodS : Option ℚ := none
  waterTempC : Option ℚ := none
  uvIndex : Option ℚ := none
deriving DecidableEq, Repr

/-- Record `ForecastBundle`: a named location plus its hourly series. -/
structure ForecastBundle where
  locationName : String
  latitude : ℚ
  longitude : ℚ
  timezone : String
  hours : List ForecastHour
  sunrise : Option String := none
  sunset : Option String := none
deriving DecidableEq, Repr

/-! ## Nearest-hour selector (`nowHour` useMemo, App.tsx)

`new Date(h.time).getTime()` is platform date parsing; it is passed in as
`parseTime : String → ℤ` (epoch milliseconds).  `now` is `Date.now()`. -/

/-- Delta `Math.abs(new Date(h.time).getTime() - now)`. -/
def timeDelta (parseTime : String → ℤ) (now : ℤ) (h : ForecastHour) : ℕ :=
  (parseTime h.time - now).natAbs

/-- The `for (const h of bundle.hours)` scan: keep the running best and
its delta, replacing them only on a strict decrease. -/
def nowHourLoop (parseTime : String → ℤ) (now : ℤ) :
    List ForecastHour → ForecastHour × ℕ → ForecastHour × ℕ
  | [], acc => acc
  | h :: rest, (best, bestDelta) =>
    let d := timeDelta parseTime now h
    if d < bestDelta then nowHourLoop parseTime now rest (h, d)
    else nowHourLoop parseTime now rest (best, bestDelta)

/-- The `nowHour` selector: `null` for an empty series, otherwise the
linear left-to-right minimum scan started at the first sample and run
over the whole list. -/
def nowHour (parseTime : String → ℤ) (hours : List ForecastHour) (now : ℤ) :
    Option ForecastHour :=
  match hours with
  | [] => none
  | h0 :: _ =>
    some (nowHourLoop parseTime now hours (h0, timeDelta parseTime now h0)).1

/-! ## Schedule evaluator (`checkSchedule`, App.tsx) -/

/-- Padding `String.padStart(2, '0')` as used on `getHours()`/`getMinutes()`. -/
def padStart2 (s : String) : String :=
  if 2 ≤ s.length then s else "0" ++ s

/-- The current wall-clock time formatted as zero-padded 24-hour
`"HH:MM"` from the browser's local clock. -/
def formatHM (hour minute : ℕ) : String :=
  padStart2 (toString hour) ++ ":" ++ padStart2 (toString minute)

/-- The schedule evaluator's fire condition:
`ntfy.schedule.includes(currentTime)`. -/
def checkScheduleFires (schedule : List String) (hour minute : ℕ) : Bool :=
  schedule.contains (formatHM hour minute)

/-! ## Surfer-mode helpers (App.tsx) -/

/-- Result record of `getWindSurferRating`. -/
structure SurferRating where
  rating : String
  color : String
  range : String
deriving DecidableEq, Repr

def getWindSurferRating (windSpeedKmh : ℚ) : SurferRating :=
  if windSpeedKmh < 16 then ⟨"Light", "text-green-600", "5–16 km/h"⟩
  else if windSpeedKmh < 30 then ⟨"Moderate", "text-yellow-600", "16–30 km/h"⟩
  else ⟨"Strong+", "text-red-600", "30+ km/h"⟩

/-- Result record of `getWaterSurfaceDescription`. -/
structure WaterSurface where
  condition : String
  color : String
deriving DecidableEq, Repr

def getWaterSurfaceDescription (waveHeightM : Option ℚ) (_windSpeedKmh : Option ℚ) :
    WaterSurface :=
  if truthyOpt waveHeightM = false ∨ waveHeightM.getD 0 < 0.3 then
    ⟨"Smooth", "text-blue-600"⟩
  else if waveHeightM.getD 0 < 0.8 then ⟨"Choppy", "text-green-600"⟩
  else ⟨"Rough", "text-orange-600"⟩

/-- Embedding of `isSideOnshore` from App.tsx: normalize through a single `+360` and
JavaScript `%`, then test the two fixed 90°-wide sectors
(the `windDeg == null || isNaN` guard of the newer revision never fires
in the rational model). -/
def isSideOnshore (windDeg : ℚ) : Bool :=
  let normalized := jsMod (windDeg + 360) 360
  (decide (315 ≤ normalized) || decide (normalized < 45))
    || (decide (135 ≤ normalized) && decide (normalized < 225))

/-- Mathematical normalization of a direction into `[0, 360)`; used to
state the sector claim about `isSideOnshore`. -/
def mathNormDeg (d : ℚ) : ℚ :=
  d - 360 * (⌊d / 360⌋ : ℚ)

/-- Membership of a normalized direction in `[315°,45°) ∪ [135°,225°)`. -/
def inOnshoreSector (n : ℚ) : Bool :=
  (decide (315 ≤ n) || decide (n < 45)) || (decide (135 ≤ n) && decide (n < 225))

/-! ## Tide approximation (`calculateTideHeight`) -/

/-- Embedding of `calculateTideHeight`: the sinusoidal tide model, as a function of
`date.getUTCHours()` (an hour-of-day in `0..23`; any valid timestamp
yields one).  The `hours % 12.42` remainder is exact in `ℚ`; the sine is
real-valued. -/
noncomputable def calculateTideHeight (hours : ℕ) : ℝ :=
  let tidalPeriod : ℚ := 12.42
  let phase : ℝ := ((jsMod (hours : ℚ) tidalPeriod / tidalPeriod : ℚ) : ℝ) * 2 * Real.pi
  let meanTide : ℝ := 1.1
  let tideRange : ℝ := 0.9
  meanTide + tideRange * Real.sin (phase - Real.pi / 2)

/-! ## Persisted settings (`readJson`, App.tsx)

`localStorage.getItem` and `JSON.parse` are platform collaborators,
passed in as `getItem` (returning `none` for a missing key) and `parse`
(returning `none` when `JSON.parse` would throw). -/

/-- Embedding of `readJson`: missing entry (`null` or the falsy empty string) or a
parse failure falls back; otherwise the parsed value is returned. -/
def readJson {T : Type} (getItem : String → Option String)
    (parse : String → Option T) (key : String) (fallback : T) : T :=
  match getItem key with
  | none => fallback
  | some raw =>
    if raw = "" then fallback
    else
      match parse raw with
      | none => fallback
      | some v => v

/-! ## Message composer (App.tsx, revision with temperature units)

`fmtTime` is `Intl.DateTimeFormat` platform formatting, passed in as
`fmtT : String → String → String` (ISO timestamp, timezone). -/

inductive ViewMode where
  | casual
  | surfer
  | everything
  | custom
deriving DecidableEq, Repr

/-- The casual conditions indicator:
`prob && prob > 30 ? Rain … : 'Clear'` (zero and absent are falsy). -/
def casualConditions (prec : Option ℚ) : String :=
  match prec with
  | none => "Clear"
  | some p => if p ≠ 0 ∧ 30 < p then "Rain " ++ toString (jsRound p) ++ "%" else "Clear"

/-- Embedding of `getCasualMessage`: location, local time, wind, temperature and the
coarse rain/clear indicator. -/
def getCasualMessage (fmtT : String → String → String) (bundle : ForecastBundle)
    (nowHour : ForecastHour) (unit : WindUnit) (temperatureUnit : TemperatureUnit) :
    String :=
  let location := bundle.locationName
  let time := fmtT nowHour.time bundle.timezone
  let wind := formatWindSpeed (jsOrZero nowHour.windSpeed10mKmh) unit ++ " "
    ++ degToCompassStr (jsOrZero nowHour.windDirection10mDeg)
  let temp := formatTemperatureForDisplay (jsOrZero nowHour.temperatureC) temperatureUnit
  let conditions := casualConditions nowHour.precipitationProbabilityPct
  "☀️ Daily Weather - " ++ location ++ "\n⏰ " ++ time ++ "\n💨 Wind: " ++ wind
    ++ "\n🌡️ Temp: " ++ temp ++ "\n🌤️ " ++ conditions

/-- Everything-mode `gust` local: `windGusts ? Gust … : ''`. -/
def gustPart (h : ForecastHour) (unit : WindUnit) : String :=
  if truthyOpt h.windGusts10mKmh then
    "Gust " ++ formatWindSpeed (h.windGusts10mKmh.getD 0) unit
  else ""

/-- Everything-mode `rain` local: `prob ? Rain …% : ''`. -/
def rainPart (h : ForecastHour) : String :=
  if truthyOpt h.precipitationProbabilityPct then
    "Rain " ++ toString (jsRound (h.precipitationProbabilityPct.getD 0)) ++ "%"
  else ""

/-- Everything-mode `pressure` local: `pressure ? …hPa : ''`. -/
def pressurePart (h : ForecastHour) : String :=
  if truthyOpt h.pressureMslHpa then
    toString (jsRound (h.pressureMslHpa.getD 0)) ++ "hPa"
  else ""

/-- Everything-mode `vis` local: `visibility ? Vis …km : ''`. -/
def visPart (h : ForecastHour) : String :=
  if truthyOpt h.visibilityM then
    "Vis " ++ jsToFixed1 (h.visibilityM.getD 0 / 1000) ++ "km"
  else ""

/-- Everything-mode `waves` local: `waveHeight ? Waves …m : ''`. -/
def wavesPart (h : ForecastHour) : String :=
  if truthyOpt h.waveHeightM then
    "Waves " ++ jsToFixed1 (h.waveHeightM.getD 0) ++ "m"
  else ""

/-- Everything-mode `water` local: `waterTemp ? Water … : ''`. -/
def waterPart (h : ForecastHour) (temperatureUnit : TemperatureUnit) : String :=
  if truthyOpt h.waterTempC then
    "Water " ++ formatTemperatureForDisplay (h.waterTempC.getD 0) temperatureUnit
  else ""

/-- The `everything` branch of `getViewModeSpecificMessage`. -/
def everythingMessage (fmtT : String → String → String) (bundle : ForecastBundle)
    (nowHour : ForecastHour) (unit : WindUnit) (temperatureUnit : TemperatureUnit) :
    String :=
  let location := bundle.locationName
  let time := fmtT nowHour.time bundle.timezone
  let wind := formatWindSpeed (jsOrZero nowHour.windSpeed10mKmh) unit ++ " "
    ++ degToCompassStr (jsOrZero nowHour.windDirection10mDeg)
  let gust := gustPart nowHour unit
  let temp := formatTemperatureForDisplay (jsOrZero nowHour.temperatureC) temperatureUnit
  let hum := toString (jsRound (jsOrZero nowHour.humidityPct)) ++ "%"
  let clouds := toString (jsRound (jsOrZero nowHour.cloudCoverPct)) ++ "%"
  let rain := rainPart nowHour
  let pressure := pressurePart nowHour
  let vis := visPart nowHour
  let waves := wavesPart nowHour
  let water := waterPart nowHour temperatureUnit
  "📊 Complete Weather Report - " ++ location ++ "\n⏰ " ++ time
    ++ "\n💨 Wind: " ++ wind ++ " " ++ gust
    ++ "\n🌡️ Temp: " ++ temp ++ " • Humidity: " ++ hum ++ " • Clouds: " ++ clouds
    ++ "\n" ++ (if rain = "" then "" else "🌧️ " ++ rain)
    ++ " " ++ (if pressure = "" then "" else "📏 " ++ pressure)
    ++ " " ++ (if vis = "" then "" else "👁️ " ++ vis)
    ++ "\n" ++ (if waves = "" then "" else "🌊 " ++ waves)
    ++ " " ++ (if water = "" then "" else "💧 " ++ water)

/-- The `surfer` branch of `getViewModeSpecificMessage`. -/
def surferMessage (fmtT : String → String → String) (bundle : ForecastBundle)
    (nowHour : ForecastHour) (unit : WindUnit) (temperatureUnit : TemperatureUnit) :
    String :=
  let location := bundle.locationName
  let time := fmtT nowHour.time bundle.timezone
  let wind := formatWindSpeed (jsOrZero nowHour.windSpeed10mKmh) unit ++ " "
    ++ degToCompassStr (jsOrZero nowHour.windDirection10mDeg)
  let windRating := getWindSurferRating (jsOrZero nowHour.windSpeed10mKmh)
  let water := getWaterSurfaceDescription nowHour.waveHeightM (some nowHour.windSpeed10mKmh)
  let windType :=
    if isSideOnshore (jsOrZero nowHour.windDirection10mDeg) then "Side-onshore"
    else "Cross-shore"
  let temp := formatTemperatureForDisplay (jsOrZero nowHour.temperatureC) temperatureUnit
  "🏄‍♂️ Wind Surfer Report - " ++ location
    ++ "\n⏰ " ++ time ++ " • 🌡️ " ++ temp
    ++ "\n💨 Wind: " ++ wind ++ " (" ++ windRating.rating ++ ")"
    ++ "\n🌊 Water: " ++ water.condition ++ " • " ++ windType
    ++ "\n📊 Rating: " ++ windRating.rating ++ " (" ++ windRating.range ++ ")"
    ++ "\n" ++ (if truthyOpt nowHour.waveHeightM then
        "🌊 Waves: " ++ jsToFixed1 (nowHour.waveHeightM.getD 0) ++ "m "
          ++ (if truthyOpt nowHour.wavePeriodS then
              toString (jsRound (nowHour.wavePeriodS.getD 0)) ++ "s" else "")
      else "")
    ++ "\n" ++ (if truthyOpt nowHour.waterTempC then
        "💧 Water: " ++ jsToFixed1 (nowHour.waterTempC.getD 0) ++ "°C" else "")

/-- Embedding of `getViewModeSpecificMessage`: branch on the view mode; `custom` and
the default fall back to the casual format. -/
def getViewModeSpecificMessage (fmtT : String → String → String)
    (bundle : ForecastBundle) (nowHour : ForecastHour) (unit : WindUnit)
    (temperatureUnit : TemperatureUnit) (viewMode : ViewMode) : String :=
  match viewMode with
  | .surfer => surferMessage fmtT bundle nowHour unit temperatureUnit
  | .everything => everythingMessage fmtT bundle nowHour unit temperatureUnit
  | .custom => getCasualMessage fmtT bundle nowHour unit temperatureUnit
  | .casual => getCasualMessage fmtT bundle nowHour unit temperatureUnit

/-- Embedding of `condensedMessage` (App.tsx useMemo): the single-line summary; the
guard returns the empty string when either the bundle or the selected
sample is missing. -/
def condensedMessage (fmtT : String → String → String) (unit : WindUnit)
    (bundle : Option ForecastBundle) (nowHourSample : Option ForecastHour) : String :=
  match bundle, nowHourSample with
  | some b, some h =>
    let wind := formatWindSpeed h.windSpeed10mKmh unit ++ " "
      ++ degToCompassStr h.windDirection10mDeg
    let gust := match h.windGusts10mKmh with
      | none => ""
      | some g => " | Gust " ++ formatWindSpeed g unit
    let temp := toString (jsRound h.temperatureC) ++ "°C"
    let hum := toString (jsRound h.humidityPct) ++ "%"
    let clouds := toString (jsRound h.cloudCoverPct) ++ "%"
    let rainProb := match h.precipitationProbabilityPct with
      | none => ""
      | some p => " | Rain " ++ toString (jsRound p) ++ "%"
    let rainMm := match h.precipitationMm with
      | none => ""
      | some p => " " ++ jsToFixed1 p ++ "mm"
    let pressure := match h.pressureMslHpa with
      | none => ""
      | some p => " | " ++ toString (jsRound p) ++ "hPa"
    let vis := match h.visibilityM with
      | none => ""
      | some v => " | Vis " ++ jsToFixed1 (v / 1000) ++ "km"
    let waves := match h.waveHeightM with
      | none => ""
      | some w => " | Waves " ++ jsToFixed1 w ++ "m"
    let waveDir := match h.waveDirectionDeg with
      | none => ""
      | some d => " " ++ degToCompassStr d
    let wavePeriod := match h.wavePeriodS with
      | none => ""
      | some p => " " ++ toString (jsRound p) ++ "s"
    let water := match h.waterTempC with
      | none => ""
      | some w => " | Water " ++ jsToFixed1 w ++ "°C"
    let rise := if b.sunrise.getD "" = "" then "" else fmtT (b.sunrise.getD "") b.timezone
    let sset := if b.sunset.getD "" = "" then "" else fmtT (b.sunset.getD "") b.timezone
    let sun := if rise = "" ∨ sset = "" then "" else " | Sun " ++ rise ++ "-" ++ sset
    let t := fmtT h.time b.timezone
    "BurgerWinds • " ++ b.locationName ++ " • " ++ t ++ " • Wind " ++ wind ++ gust
      ++ " • Temp " ++ temp ++ " • Hum " ++ hum ++ " • Clouds " ++ clouds
      ++ rainProb ++ rainMm ++ pressure ++ vis ++ waves ++ waveDir ++ wavePeriod
      ++ water ++ sun
  | _, _ => ""

/-! ## Forecast merge (`fetchForecast`, src/lib/openMeteo.ts)

The two HTTP responses are consumed as parallel arrays; the merge builds
`marineIndex : Map<string, number>` and aligns by exact timestamp-string
equality.  The `Map` is modelled as a lookup function built by the same
insertion loop. -/

/-- Insertion `Map.prototype.set`: later insertions overwrite earlier ones. -/
def mapSet (m : String → Option ℕ) (k : String) (v : ℕ) : String → Option ℕ :=
  fun t => if t = k then some v else m t

/-- The `for (let i = 0; …) marineIndex.set(marineTime[i], i)` loop,
with `i` starting at `start`. -/
def buildMarineIndex (start : ℕ) : List String → (String → Option ℕ) → (String → Option ℕ)
  | [], m => m
  | t :: rest, m => buildMarineIndex (start + 1) rest (mapSet m t start)

/-- The finished `marineIndex` map. -/
def marineIndex (marineTime : List String) : String → Option ℕ :=
  buildMarineIndex 0 marineTime (fun _ => none)

/-- Index of the last occurrence of `t` in `l` (the value a JavaScript
`Map` holds after inserting every index in order). -/
def lastMatchIdx : List String → String → Option ℕ
  | [], _ => none
  | a :: l, t =>
    match lastMatchIdx l t with
    | some j => some (j + 1)
    | none => if a = t then some 0 else none

/-- The `time.map((t, i) => …)` merge of `fetchForecast`: one record per
weather timestamp, marine fields looked up by exact timestamp string. -/
def fetchForecastHours (time : List String)
    (windSpeed windGusts windDir temp hum clouds precProb precip pressure
      visibility uvIndex : List ℚ)
    (marineTime : List String) (waveHeight waveDirection wavePeriod waterTemp : List ℚ) :
    List ForecastHour :=
  let marineIdx := marineIndex marineTime
  time.mapIdx (fun i t =>
    let mi := marineIdx t
    { time := t
      windSpeed10mKmh := (windSpeed[i]?).getD 0
      windGusts10mKmh := windGusts[i]?
      windDirection10mDeg := (windDir[i]?).getD 0
      temperatureC := (temp[i]?).getD 0
      humidityPct := (hum[i]?).getD 0
      cloudCoverPct := (clouds[i]?).getD 0
      precipitationProbabilityPct := precProb[i]?
      precipitationMm := precip[i]?
      pressureMslHpa := pressure[i]?
      visibilityM := visibility[i]?
      uvIndex := uvIndex[i]?
      waveHeightM := mi.bind (fun j => waveHeight[j]?)
      waveDirectionDeg := mi.bind (fun j => waveDirection[j]?)
      wavePeriodS := mi.bind (fun j => wavePeriod[j]?)
      waterTempC := mi.bind (fun j => waterTemp[j]?) })

/-! ## Substring containment

Claims about message contents are stated with a decidable substring
check over the underlying character lists. -/

/-- Predicate: `needle` occurs as a contiguous run inside `hay`. -/
def infixOf (needle : List Char) : List Char → Bool
  | [] => needle.isEmpty
  | c :: rest => needle.isPrefixOf (c :: rest) || infixOf needle rest

/-- Predicate: `needle` occurs as a contiguous substring of `hay`. -/
def containsSubstr (needle hay : String) : Bool :=
  infixOf needle.data hay.data

lemma stringData_append (s t : String) : (s ++ t).data = s.data ++ t.data := rfl

lemma infixOf_nil_left (t : List Char) : infixOf [] t = true := by
  induction t with
  | nil => rfl
  | cons c rest ih => simp [infixOf, List.isPrefixOf]

lemma infixOf_self (n : List Char) : infixOf n n = true := by
  cases n with
  | nil => rfl
  | cons c rest =>
    have : List.isPrefixOf (c :: rest) (c :: rest) = true := by
      rw [List.isPrefixOf_iff_prefix]
    simp [infixOf, this]

lemma isPrefixOf_append_right (n s t : List Char) (h : n.isPrefixOf s = true) :
    n.isPrefixOf (s ++ t) = true := by
  rw [List.isPrefixOf_iff_prefix] at h ⊢
  exact h.trans (List.prefix_append s t)

lemma infixOf_append_right (n t s : List Char) (h : infixOf n t = true) :
    infixOf n (s ++ t) = true := by
  induction s with
  | nil => simpa using h
  | cons c rest ih => simp [infixOf, ih]

lemma infixOf_append_left (n s t : List Char) (h : infixOf n s = true) :
    infixOf n (s ++ t) = true := by
  induction s with
  | nil =>
    simp only [infixOf, List.isEmpty_iff] at h
    subst h
    simpa using infixOf_nil_left t
  | cons c rest ih =>
    simp only [infixOf, Bool.or_eq_true] at h
    rw [List.cons_append]
    simp only [infixOf, Bool.or_eq_true]
    rcases h with h | h
    · have hp := isPrefixOf_append_right n (c :: rest) t h
      rw [List.cons_append] at hp
      exact Or.inl hp
    · exact Or.inr (ih h)

lemma containsSubstr_append_right (n s t : String) (h : containsSubstr n t = true) :
    containsSubstr n (s ++ t) = true := by
  unfold containsSubstr at h ⊢
  rw [stringData_append]
  exact infixOf_append_right _ _ _ h

lemma containsSubstr_append_left (n s t : String) (h : containsSubstr n s = true) :
    containsSubstr n (s ++ t) = true := by
  unfold containsSubstr at h ⊢
  rw [stringData_append]
  exact infixOf_append_left _ _ _ h

lemma containsSubstr_self (s : String) : containsSubstr s s = true :=
  infixOf_self s.data

/-! ## C10 — tide-height bounds -/

/-- C10: for every input hour-of-day, the tide approximation stays in
`[0.2, 2.0]` metres: mean tide 1.1 m plus a sine term scaled by the
0.9 m tide range. -/
theorem calculateTideHeight_bounded (hours : ℕ) :
    0.2 ≤ calculateTideHeight hours ∧ calculateTideHeight hours ≤ 2.0 := by
  have h1 := Real.neg_one_le_sin
    (((jsMod (hours : ℚ) 12.42 / 12.42 : ℚ) : ℝ) * 2 * Real.pi - Real.pi / 2)
  have h2 := Real.sin_le_one
    (((jsMod (hours : ℚ) 12.42 / 12.42 : ℚ) : ℝ) * 2 * Real.pi - Real.pi / 2)
  simp only [calculateTideHeight]
  constructor <;> nlinarith [h1, h2]

/-! ## C9 — persisted-settings fallback -/

/-- C9: `readJson` returns the fallback whenever the stored entry is
missing or unparseable, and returns the parsed value of a successfully
parsed entry.  The hypothesis records that `JSON.parse` rejects the
empty string (the entry the `!raw` guard also short-circuits on). -/
theorem readJson_fallback_or_parsed {T : Type} (getItem : String → Option String)
    (parse : String → Option T) (key : String) (fallback : T)
    (hempty : parse "" = none) :
    (getItem key = none → readJson getItem parse key fallback = fallback) ∧
    (∀ raw, getItem key = some raw → parse raw = none →
      readJson getItem parse key fallback = fallback) ∧
    (∀ raw v, getItem key = some raw → parse raw = some v →
      readJson getItem parse key fallback = v) := by
  refine ⟨fun hmiss => ?_, fun raw hget hfail => ?_, fun raw v hget hok => ?_⟩
  · unfold readJson
    rw [hmiss]
  · unfold readJson
    rw [hget]
    by_cases hr : raw = ""
    · simp [hr]
    · simp [hr, hfail]
  · unfold readJson
    rw [hget]
    by_cases hr : raw = ""
    · subst hr
      rw [hempty] at hok
      exact absurd hok (by simp)
    · simp [hr, hok]

/-- Concrete instance of `readJson_fallback_or_parsed`: a stored `"42"`
parses back to `42` rather than the fallback `0`. -/
theorem readJson_fallback_or_parsed_witness :
    readJson (fun k => if k = "bw_unit" then some "42" else none)
      (fun s => if s = "42" then some (42 : ℕ) else none) "bw_unit" 0 = 42 :=
  (readJson_fallback_or_parsed (fun k => if k = "bw_unit" then some "42" else none)
    (fun s => if s = "42" then some (42 : ℕ) else none) "bw_unit" 0
    (by decide)).2.2 "42" 42 (by decide) (by decide)

/-! ## C2 — schedule evaluator -/

/-- C2: the evaluator fires exactly when the zero-padded 24-hour
`"HH:MM"` rendering of the current local time is a member of the
schedule list; for the schedule `["07:00", "18:00"]` that happens
exactly at 07:00 and 18:00 and at no other minute of the day. -/
theorem checkScheduleFires_membership :
    (∀ (schedule : List String) (hour minute : ℕ),
      checkScheduleFires schedule hour minute = true ↔ formatHM hour minute ∈ schedule) ∧
    (∀ hour, hour < 24 → ∀ minute, minute < 60 →
      (checkScheduleFires ["07:00", "18:00"] hour minute = true ↔
        (hour = 7 ∧ minute = 0) ∨ (hour = 18 ∧ minute = 0))) := by
  constructor
  · intro schedule hour minute
    simp [checkScheduleFires]
  · decide

/-- Concrete instance of `checkScheduleFires_membership`: the schedule
`["07:00", "18:00"]` fires at 07:00. -/
theorem checkScheduleFires_membership_witness :
    checkScheduleFires ["07:00", "18:00"] 7 0 = true :=
  (checkScheduleFires_membership.2 7 (by decide) 0 (by decide)).mpr (Or.inl ⟨rfl, rfl⟩)

/-! ## C6 — shore-relative wind classification -/

/-- C6 as stated is false: at `d = -450°` the normalized direction is
`270°`, which lies in neither sector, yet `isSideOnshore` returns
`true` (its single `+360` does not reach `[0, 360)` from below
`-360°`). -/
theorem isSideOnshore_counterexample :
    isSideOnshore (-450) = true ∧ mathNormDeg (-450) = 270 ∧
      inOnshoreSector (270 : ℚ) = false := by
  refine ⟨?_, ?_, ?_⟩
  · have hm : jsMod ((-450 : ℚ) + 360) 360 = -90 := by
      unfold jsMod ratTrunc
      rw [if_neg (by norm_num)]
      norm_num
    simp only [isSideOnshore, hm]
    decide
  · unfold mathNormDeg
    norm_num
  · decide

/-- C6 amended: for every direction `d ≥ -360°`, `isSideOnshore d` is
true exactly when the normalized direction lies in
`[315°,45°) ∪ [135°,225°)`; in particular 0° and 180° are side-onshore,
90° and 270° are not, and the boundaries 45°, 135°, 225°, 315° follow
the half-open sector edges. -/
theorem isSideOnshore_sector_characterization (d : ℚ) (hd : -360 ≤ d) :
    isSideOnshore d = inOnshoreSector (mathNormDeg d) := by
  have hkey : jsMod (d + 360) 360 = mathNormDeg d := by
    unfold jsMod ratTrunc mathNormDeg
    have h0 : (0 : ℚ) ≤ (d + 360) / 360 := div_nonneg (by linarith) (by norm_num)
    rw [if_pos h0]
    have hfl : ⌊(d + 360) / 360⌋ = ⌊d / 360⌋ + 1 := by
      rw [show (d + 360) / 360 = d / 360 + 1 from by ring]
      exact Int.floor_add_one _
    rw [hfl]
    push_cast
    ring
  simp only [isSideOnshore, inOnshoreSector, hkey]

/-- Concrete instance of `isSideOnshore_sector_characterization` at
`d = 30°`. -/
theorem isSideOnshore_sector_witness :
    (-360 : ℚ) ≤ 30 ∧ isSideOnshore 30 = inOnshoreSector (mathNormDeg 30) :=
  ⟨by norm_num, isSideOnshore_sector_characterization 30 (by norm_num)⟩

/-! ## C7 — compass periodicity -/

/-- C7 as stated is false for negative inputs: at `d = -90°` the rounded
index is negative, the array access yields `undefined` (`none`), and
`degToCompass (-90) ≠ degToCompass 270`. -/
theorem degToCompass_periodicity_counterexample :
    degToCompass (-90) ≠ degToCompass (-90 + 360) := by
  have hm1 : jsMod (-90 : ℚ) 360 = -90 := by
    unfold jsMod ratTrunc
    rw [if_neg (by norm_num)]
    norm_num
  have hm2 : jsMod ((-90 : ℚ) + 360) 360 = 270 := by
    unfold jsMod ratTrunc
    rw [if_pos (by norm_num)]
    norm_num
  have hr1 : jsRound ((-90 : ℚ) / 22.5) = -4 := by
    unfold jsRound
    norm_num
  have hr2 : jsRound ((270 : ℚ) / 22.5) = 12 := by
    unfold jsRound
    norm_num
  simp only [degToCompass, hm1, hm2, hr1, hr2]
  decide

/-- C7 amended: the compass mapping is 360°-periodic on non-negative
degrees: `degToCompass d = degToCompass (d + 360)` for every `d ≥ 0`. -/
theorem degToCompass_periodic_nonneg (d : ℚ) (hd : 0 ≤ d) :
    degToCompass d = degToCompass (d + 360) := by
  have hkey : jsMod d 360 = jsMod (d + 360) 360 := by
    unfold jsMod ratTrunc
    have h0 : (0 : ℚ) ≤ d / 360 := div_nonneg hd (by norm_num)
    have h1 : (0 : ℚ) ≤ (d + 360) / 360 := div_nonneg (by linarith) (by norm_num)
    rw [if_pos h0, if_pos h1]
    have hfl : ⌊(d + 360) / 360⌋ = ⌊d / 360⌋ + 1 := by
      rw [show (d + 360) / 360 = d / 360 + 1 from by ring]
      exact Int.floor_add_one _
    rw [hfl]
    push_cast
    ring
  simp only [degToCompass, hkey]

/-- Concrete instance of `degToCompass_periodic_nonneg` at `d = 45°`. -/
theorem degToCompass_periodic_witness :
    (0 : ℚ) ≤ 45 ∧ degToCompass 45 = degToCompass (45 + 360) :=
  ⟨by norm_num, degToCompass_periodic_nonneg 45 (by norm_num)⟩

/-! ## C5 — empty series -/

/-- C5: for an empty hourly sequence the selector returns no sample, and
the condensed-message composer maps that absent sample to the empty
string instead of erroring. -/
theorem emptySeries_noSample_emptyMessage (parseTime : String → ℤ) (now : ℤ)
    (fmtT : String → String → String) (unit : WindUnit)
    (bundle : Option ForecastBundle) :
    nowHour parseTime [] now = none ∧
    condensedMessage fmtT unit bundle (nowHour parseTime [] now) = "" := by
  refine ⟨rfl, ?_⟩
  cases bundle <;> rfl

/-! ## C1 — nearest-hour selection -/

/-- Invariant of the strict-improvement scan: starting from `best`, the
loop returns `best` itself when nothing in `l` beats it, or the first
element of `l` that strictly beats `best` and everything before it, and
is not beaten later. -/
lemma nowHourLoop_spec (pt : String → ℤ) (now : ℤ) (l : List ForecastHour)
    (best r : ForecastHour) (rd : ℕ)
    (h : nowHourLoop pt now l (best, timeDelta pt now best) = (r, rd)) :
    rd = timeDelta pt now r ∧
    ((r = best ∧ ∀ x ∈ l, timeDelta pt now best ≤ timeDelta pt now x) ∨
     (∃ l₁ l₂, l = l₁ ++ r :: l₂ ∧ timeDelta pt now r < timeDelta pt now best ∧
       (∀ x ∈ l₁, timeDelta pt now r < timeDelta pt now x) ∧
       (∀ x ∈ l₂, timeDelta pt now r ≤ timeDelta pt now x))) := by
  induction l generalizing best r rd with
  | nil =>
    simp only [nowHourLoop, Prod.mk.injEq] at h
    obtain ⟨h1, h2⟩ := h
    subst h1
    subst h2
    exact ⟨rfl, Or.inl ⟨rfl, by simp⟩⟩
  | cons x l ih =>
    simp only [nowHourLoop] at h
    by_cases hcmp : timeDelta pt now x < timeDelta pt now best
    · rw [if_pos hcmp] at h
      obtain ⟨hrd, hdisj⟩ := ih x r rd h
      refine ⟨hrd, Or.inr ?_⟩
      rcases hdisj with ⟨rfl, hmin⟩ | ⟨l₁, l₂, rfl, hlt, hstrict, hle⟩
      · exact ⟨[], l, rfl, hcmp, by simp, hmin⟩
      · refine ⟨x :: l₁, l₂, rfl, lt_trans hlt hcmp, ?_, hle⟩
        intro y hy
        rcases List.mem_cons.mp hy with rfl | hy
        · exact hlt
        · exact hstrict y hy
    · rw [if_neg hcmp] at h
      obtain ⟨hrd, hdisj⟩ := ih best r rd h
      have hxbest : timeDelta pt now best ≤ timeDelta pt now x := le_of_not_lt hcmp
      refine ⟨hrd, ?_⟩
      rcases hdisj with ⟨rfl, hmin⟩ | ⟨l₁, l₂, rfl, hlt, hstrict, hle⟩
      · refine Or.inl ⟨rfl, ?_⟩
        intro y hy
        rcases List.mem_cons.mp hy with rfl | hy
        · exact hxbest
        · exact hmin y hy
      · refine Or.inr ⟨x :: l₁, l₂, rfl, hlt, ?_, hle⟩
        intro y hy
        rcases List.mem_cons.mp hy with rfl | hy
        · exact lt_of_lt_of_le hlt hxbest
        · exact hstrict y hy

/-- C1: for a non-empty hourly sequence, `nowHour` returns the sample
minimizing the absolute difference to the reference instant, and on a
tie the one with the smallest index: every strictly earlier sample has a
strictly larger delta. -/
theorem nowHour_selects_first_nearest (parseTime : String → ℤ) (now : ℤ)
    (hours : List ForecastHour) (hne : hours ≠ []) :
    ∃ m l₁ l₂, nowHour parseTime hours now = some m ∧ hours = l₁ ++ m :: l₂ ∧
      (∀ x ∈ hours, timeDelta parseTime now m ≤ timeDelta parseTime now x) ∧
      (∀ x ∈ l₁, timeDelta parseTime now m < timeDelta parseTime now x) := by
  cases hours with
  | nil => exact absurd rfl hne
  | cons h0 rest =>
    rcases heq : nowHourLoop parseTime now rest (h0, timeDelta parseTime now h0)
      with ⟨r, rd⟩
    have hstep : nowHour parseTime (h0 :: rest) now = some r := by
      unfold nowHour
      simp only [nowHourLoop]
      rw [if_neg (lt_irrefl _), heq]
    obtain ⟨hrd, hdisj⟩ := nowHourLoop_spec parseTime now rest h0 r rd heq
    rcases hdisj with ⟨rfl, hmin⟩ | ⟨l₁, l₂, rfl, hlt, hstrict, hle⟩
    · refine ⟨r, [], rest, hstep, rfl, ?_, by simp⟩
      intro x hx
      rcases List.mem_cons.mp hx with rfl | hx
      · exact le_refl _
      · exact hmin x hx
    · refine ⟨r, h0 :: l₁, l₂, hstep, rfl, ?_, ?_⟩
      · intro x hx
        rcases List.mem_cons.mp hx with rfl | hx
        · exact le_of_lt hlt
        · rcases List.mem_append.mp hx with hx | hx
          · exact le_of_lt (hstrict x hx)
          · rcases List.mem_cons.mp hx with rfl | hx
            · exact le_refl _
            · exact hle x hx
      · intro x hx
        rcases List.mem_cons.mp hx with rfl | hx
        · exact hlt
        · exact hstrict x hx

/-- A two-sample series for concrete instances. -/
def demoHour1 : ForecastHour :=
  { time := "2025-01-01T10:00"
    windSpeed10mKmh := 10
    windDirection10mDeg := 45
    temperatureC := 18
    humidityPct := 60
    cloudCoverPct := 40 }

/-- Second demo sample, one hour later. -/
def demoHour2 : ForecastHour :=
  { time := "2025-01-01T11:00"
    windSpeed10mKmh := 20
    windDirection10mDeg := 90
    temperatureC := 19
    humidityPct := 55
    cloudCoverPct := 30 }

/-- Demo timestamp parsing: 10:00 maps to epoch 0 ms, 11:00 to
3 600 000 ms. -/
def demoParseTime : String → ℤ :=
  fun s => if s = "2025-01-01T10:00" then 0 else 3600000

/-- Concrete instance of `nowHour_selects_first_nearest` on the
two-sample demo series. -/
theorem nowHour_selects_first_nearest_witness :
    ∃ m l₁ l₂,
      nowHour demoParseTime [demoHour1, demoHour2] 1000 = some m ∧
      [demoHour1, demoHour2] = l₁ ++ m :: l₂ ∧
      (∀ x ∈ [demoHour1, demoHour2],
        timeDelta demoParseTime 1000 m ≤ timeDelta demoParseTime 1000 x) ∧
      (∀ x ∈ l₁, timeDelta demoParseTime 1000 m < timeDelta demoParseTime 1000 x) :=
  nowHour_selects_first_nearest demoParseTime 1000 [demoHour1, demoHour2] (by simp)

/-! ## C3 — casual message contents -/

/-- Concrete stand-in for the `Intl` time formatter. -/
def demoFmtTime : String → String → String := fun _ _ => "10:00"

/-- The end-to-end scenario sample of the spec: wind 20 km/h at 45°,
18 °C, humidity 60 %, cloud cover 40 %, precipitation probability 10 %. -/
def demoHourC3 : ForecastHour :=
  { time := "2025-01-01T10:00"
    windSpeed10mKmh := 20
    windDirection10mDeg := 45
    temperatureC := 18
    humidityPct := 60
    cloudCoverPct := 40
    precipitationProbabilityPct := some 10 }

/-- A one-sample bundle around `demoHourC3`. -/
def demoBundle : ForecastBundle :=
  { locationName := "Langebaan, ZA"
    latitude := -33
    longitude := 18
    timezone := "Africa/Johannesburg"
    hours := [demoHourC3] }

/-- Evaluation of the casual message on the scenario sample. -/
lemma casual_demo_eval :
    getCasualMessage demoFmtTime demoBundle demoHourC3 WindUnit.kmh
      TemperatureUnit.celsius
      = "☀️ Daily Weather - Langebaan, ZA\n⏰ 10:00\n💨 Wind: 20 km/h NE\n🌡️ Temp: 18°\n🌤️ Clear" := by
  have hz20 : jsOrZero (20 : ℚ) = 20 := by norm_num [jsOrZero]
  have hz45 : jsOrZero (45 : ℚ) = 45 := by norm_num [jsOrZero]
  have hz18 : jsOrZero (18 : ℚ) = 18 := by norm_num [jsOrZero]
  have hr20 : jsRound (20 : ℚ) = 20 := by unfold jsRound; norm_num
  have hr18 : jsRound (18 : ℚ) = 18 := by unfold jsRound; norm_num
  have hcomp : degToCompass (45 : ℚ) = some "NE" := by
    have hm : jsMod (45 : ℚ) 360 = 45 := by
      unfold jsMod ratTrunc
      rw [if_pos (by norm_num)]
      norm_num
    have hr : jsRound ((45 : ℚ) / 22.5) = 2 := by
      unfold jsRound
      norm_num
    simp only [degToCompass, hm, hr]
    decide
  have hcond : casualConditions (some (10 : ℚ)) = "Clear" := by
    simp only [casualConditions]
    rw [if_neg (by norm_num)]
  simp only [getCasualMessage, demoBundle, demoHourC3, demoFmtTime, degToCompassStr,
    formatWindSpeed, formatTemperatureForDisplay, hz20, hz45, hz18, hr20, hr18,
    hcomp, hcond]
  rfl

/-- C3 as stated is false on its own scenario: the casual composer uses
the display temperature formatter, which emits `"18°"` with no unit
letter, so the message contains `"20 km/h NE"` and `"Clear"` but not
`"18°C"`. -/
theorem casualMessage_scenario_counterexample :
    containsSubstr "20 km/h NE" (getCasualMessage demoFmtTime demoBundle demoHourC3
      WindUnit.kmh TemperatureUnit.celsius) = true ∧
    containsSubstr "Clear" (getCasualMessage demoFmtTime demoBundle demoHourC3
      WindUnit.kmh TemperatureUnit.celsius) = true ∧
    containsSubstr "18°C" (getCasualMessage demoFmtTime demoBundle demoHourC3
      WindUnit.kmh TemperatureUnit.celsius) = false := by
  rw [casual_demo_eval]
  decide

/-- C3 amended: on the scenario sample the casual message contains
`"20 km/h NE"`, `"18°"` and `"Clear"`; in general it contains
`"Rain N%"` when the precipitation probability exceeds 30 % and
`"Clear"` when it is absent or at most 30 %. -/
theorem casualMessage_contents (fmtT : String → String → String)
    (bundle : ForecastBundle) (h : ForecastHour) (unit : WindUnit)
    (tu : TemperatureUnit) :
    (containsSubstr "20 km/h NE" (getCasualMessage demoFmtTime demoBundle demoHourC3
        WindUnit.kmh TemperatureUnit.celsius) = true ∧
      containsSubstr "18°" (getCasualMessage demoFmtTime demoBundle demoHourC3
        WindUnit.kmh TemperatureUnit.celsius) = true ∧
      containsSubstr "Clear" (getCasualMessage demoFmtTime demoBundle demoHourC3
        WindUnit.kmh TemperatureUnit.celsius) = true) ∧
    (∀ p, h.precipitationProbabilityPct = some p → 30 < p →
      containsSubstr ("Rain " ++ toString (jsRound p) ++ "%")
        (getCasualMessage fmtT bundle h unit tu) = true) ∧
    (h.precipitationProbabilityPct = none ∨
        (∃ p, h.precipitationProbabilityPct = some p ∧ p ≤ 30) →
      containsSubstr "Clear" (getCasualMessage fmtT bundle h unit tu) = true) := by
  refine ⟨?_, ?_, ?_⟩
  · rw [casual_demo_eval]
    decide
  · intro p hp h30
    have hcond : casualConditions h.precipitationProbabilityPct
        = "Rain " ++ toString (jsRound p) ++ "%" := by
      rw [hp]
      simp only [casualConditions]
      rw [if_pos ⟨ne_of_gt (lt_trans (by norm_num) h30), h30⟩]
    simp only [getCasualMessage]
    rw [hcond]
    exact containsSubstr_append_right _ _ _ (containsSubstr_self _)
  · intro hcase
    have hcond : casualConditions h.precipitationProbabilityPct = "Clear" := by
      rcases hcase with hnone | ⟨p, hp, hle⟩
      · rw [hnone]
        rfl
      · rw [hp]
        simp only [casualConditions]
        rw [if_neg (fun hc => absurd hc.2 (not_lt.mpr hle))]
    simp only [getCasualMessage]
    rw [hcond]
    exact containsSubstr_append_right _ _ _ (containsSubstr_self _)

/-- The scenario sample with precipitation probability raised to 55 %. -/
def demoHourRain : ForecastHour :=
  { demoHourC3 with precipitationProbabilityPct := some 55 }

/-- Concrete instance of `casualMessage_contents`: at 55 % probability
the casual message reports the rain percentage. -/
theorem casualMessage_contents_witness :
    containsSubstr ("Rain " ++ toString (jsRound (55 : ℚ)) ++ "%")
      (getCasualMessage demoFmtTime demoBundle demoHourRain WindUnit.kmh
        TemperatureUnit.celsius) = true :=
  (casualMessage_contents demoFmtTime demoBundle demoHourRain WindUnit.kmh
    TemperatureUnit.celsius).2.1 55 rfl (by norm_num)

/-! ## C4 — everything-mode field presence -/

lemma stringAppend_ne_empty_right (s t : String) (ht : t.data ≠ []) : s ++ t ≠ "" := by
  intro h
  have hd : s.data ++ t.data = [] := by
    have := congrArg String.data h
    rwa [stringData_append] at this
  exact ht (List.append_eq_nil.mp hd).2

/-- The scenario sample with a present precipitation probability of 0 %. -/
def demoHourZeroRain : ForecastHour :=
  { demoHourC3 with precipitationProbabilityPct := some 0 }

/-- Evaluation of the everything message on the zero-probability sample. -/
lemma everything_zero_demo_eval :
    everythingMessage demoFmtTime demoBundle demoHourZeroRain WindUnit.kmh
      TemperatureUnit.celsius
      = "📊 Complete Weather Report - Langebaan, ZA\n⏰ 10:00\n💨 Wind: 20 km/h NE \n🌡️ Temp: 18° • Humidity: 60% • Clouds: 40%\n  \n " := by
  have hz20 : jsOrZero (20 : ℚ) = 20 := by norm_num [jsOrZero]
  have hz45 : jsOrZero (45 : ℚ) = 45 := by norm_num [jsOrZero]
  have hz18 : jsOrZero (18 : ℚ) = 18 := by norm_num [jsOrZero]
  have hz60 : jsOrZero (60 : ℚ) = 60 := by norm_num [jsOrZero]
  have hz40 : jsOrZero (40 : ℚ) = 40 := by norm_num [jsOrZero]
  have hr20 : jsRound (20 : ℚ) = 20 := by unfold jsRound; norm_num
  have hr18 : jsRound (18 : ℚ) = 18 := by unfold jsRound; norm_num
  have hr60 : jsRound (60 : ℚ) = 60 := by unfold jsRound; norm_num
  have hr40 : jsRound (40 : ℚ) = 40 := by unfold jsRound; norm_num
  have hcomp : degToCompass (45 : ℚ) = some "NE" := by
    have hm : jsMod (45 : ℚ) 360 = 45 := by
      unfold jsMod ratTrunc
      rw [if_pos (by norm_num)]
      norm_num
    have hr : jsRound ((45 : ℚ) / 22.5) = 2 := by
      unfold jsRound
      norm_num
    simp only [degToCompass, hm, hr]
    decide
  have hgust : gustPart demoHourZeroRain WindUnit.kmh = "" := by decide
  have hrain : rainPart demoHourZeroRain = "" := by decide
  have hpress : pressurePart demoHourZeroRain = "" := by decide
  have hvis : visPart demoHourZeroRain = "" := by decide
  have hwaves : wavesPart demoHourZeroRain = "" := by decide
  have hwater : waterPart demoHourZeroRain TemperatureUnit.celsius = "" := by decide
  simp only [everythingMessage, demoBundle, demoHourZeroRain, demoHourC3, demoFmtTime,
    degToCompassStr, formatWindSpeed, formatTemperatureForDisplay, hz20, hz45, hz18,
    hz60, hz40, hr20, hr18, hr60, hr40, hcomp, hgust, hrain, hpress, hvis, hwaves,
    hwater]
  rfl

/-- C4 as stated is false: a present precipitation probability whose
value is 0 is falsy in the JavaScript truthiness check, so its field is
omitted from the everything message. -/
theorem everythingMessage_zero_field_counterexample :
    demoHourZeroRain.precipitationProbabilityPct = some 0 ∧
    containsSubstr "Rain" (everythingMessage demoFmtTime demoBundle demoHourZeroRain
      WindUnit.kmh TemperatureUnit.celsius) = false := by
  refine ⟨rfl, ?_⟩
  rw [everything_zero_demo_eval]
  decide

/-- C4 amended: the everything-mode message always includes the wind,
temperature, humidity and cloud-cover renderings, includes each optional
field exactly when it is present with a nonzero value, and omits an
optional field (its segment is empty) when it is absent or when its
present value is 0 — JavaScript truthiness, deviating from the claim's
"a present field whose value is 0 is still emitted". -/
theorem everythingMessage_field_presence (fmtT : String → String → String)
    (bundle : ForecastBundle) (h : ForecastHour) (unit : WindUnit)
    (tu : TemperatureUnit) :
    (containsSubstr (formatWindSpeed (jsOrZero h.windSpeed10mKmh) unit ++ " "
        ++ degToCompassStr (jsOrZero h.windDirection10mDeg))
      (everythingMessage fmtT bundle h unit tu) = true) ∧
    (containsSubstr (formatTemperatureForDisplay (jsOrZero h.temperatureC) tu)
      (everythingMessage fmtT bundle h unit tu) = true) ∧
    (containsSubstr (toString (jsRound (jsOrZero h.humidityPct)) ++ "%")
      (everythingMessage fmtT bundle h unit tu) = true) ∧
    (containsSubstr (toString (jsRound (jsOrZero h.cloudCoverPct)) ++ "%")
      (everythingMessage fmtT bundle h unit tu) = true) ∧
    (∀ g, h.windGusts10mKmh = some g → g ≠ 0 →
      containsSubstr ("Gust " ++ formatWindSpeed g unit)
        (everythingMessage fmtT bundle h unit tu) = true) ∧
    (∀ p, h.precipitationProbabilityPct = some p → p ≠ 0 →
      containsSubstr ("Rain " ++ toString (jsRound p) ++ "%")
        (everythingMessage fmtT bundle h unit tu) = true) ∧
    (∀ p, h.pressureMslHpa = some p → p ≠ 0 →
      containsSubstr (toString (jsRound p) ++ "hPa")
        (everythingMessage fmtT bundle h unit tu) = true) ∧
    (∀ v, h.visibilityM = some v → v ≠ 0 →
      containsSubstr ("Vis " ++ jsToFixed1 (v / 1000) ++ "km")
        (everythingMessage fmtT bundle h unit tu) = true) ∧
    (∀ w, h.waveHeightM = some w → w ≠ 0 →
      containsSubstr ("Waves " ++ jsToFixed1 w ++ "m")
        (everythingMessage fmtT bundle h unit tu) = true) ∧
    (∀ w, h.waterTempC = some w → w ≠ 0 →
      containsSubstr ("Water " ++ formatTemperatureForDisplay w tu)
        (everythingMessage fmtT bundle h unit tu) = true) ∧
    (truthyOpt h.windGusts10mKmh = false → gustPart h unit = "") ∧
    (truthyOpt h.precipitationProbabilityPct = false → rainPart h = "") ∧
    (truthyOpt h.pressureMslHpa = false → pressurePart h = "") ∧
    (truthyOpt h.visibilityM = false → visPart h = "") ∧
    (truthyOpt h.waveHeightM = false → wavesPart h = "") ∧
    (truthyOpt h.waterTempC = false → waterPart h tu = "") := by
  refine ⟨?_, ?_, ?_, ?_, ?_, ?_, ?_, ?_, ?_, ?_, ?_, ?_, ?_, ?_, ?_, ?_⟩
  · simp only [everythingMessage]
    iterate 18 apply containsSubstr_append_left
    apply containsSubstr_append_right
    exact containsSubstr_self _
  · simp only [everythingMessage]
    iterate 14 apply containsSubstr_append_left
    apply containsSubstr_append_right
    exact containsSubstr_self _
  · simp only [everythingMessage]
    iterate 12 apply containsSubstr_append_left
    apply containsSubstr_append_right
    exact containsSubstr_self _
  · simp only [everythingMessage]
    iterate 10 apply containsSubstr_append_left
    apply containsSubstr_append_right
    exact containsSubstr_self _
  · intro g hg hgz
    have hpart : gustPart h unit = "Gust " ++ formatWindSpeed g unit := by
      simp [gustPart, truthyOpt, hg, hgz]
    simp only [everythingMessage]
    rw [hpart]
    iterate 16 apply containsSubstr_append_left
    apply containsSubstr_append_right
    exact containsSubstr_self _
  · intro p hp hpz
    have hpart : rainPart h = "Rain " ++ toString (jsRound p) ++ "%" := by
      simp [rainPart, truthyOpt, hp, hpz]
    have hne : ("Rain " ++ toString (jsRound p) ++ "%" : String) ≠ "" :=
      stringAppend_ne_empty_right _ _ (by decide)
    simp only [everythingMessage]
    rw [hpart]
    iterate 8 apply containsSubstr_append_left
    apply containsSubstr_append_right
    rw [if_neg hne]
    apply containsSubstr_append_right
    exact containsSubstr_self _
  · intro p hp hpz
    have hpart : pressurePart h = toString (jsRound p) ++ "hPa" := by
      simp [pressurePart, truthyOpt, hp, hpz]
    have hne : (toString (jsRound p) ++ "hPa" : String) ≠ "" :=
      stringAppend_ne_empty_right _ _ (by decide)
    simp only [everythingMessage]
    rw [hpart]
    iterate 6 apply containsSubstr_append_left
    apply containsSubstr_append_right
    rw [if_neg hne]
    apply containsSubstr_append_right
    exact containsSubstr_self _
  · intro v hv hvz
    have hpart : visPart h = "Vis " ++ jsToFixed1 (v / 1000) ++ "km" := by
      simp [visPart, truthyOpt, hv, hvz]
    have hne : ("Vis " ++ jsToFixed1 (v / 1000) ++ "km" : String) ≠ "" :=
      stringAppend_ne_empty_right _ _ (by decide)
    simp only [everythingMessage]
    rw [hpart]
    iterate 4 apply containsSubstr_append_left
    apply containsSubstr_append_right
    rw [if_neg hne]
    apply containsSubstr_append_right
    exact containsSubstr_self _
  · intro w hw hwz
    have hpart : wavesPart h = "Waves " ++ jsToFixed1 w ++ "m" := by
      simp [wavesPart, truthyOpt, hw, hwz]
    have hne : ("Waves " ++ jsToFixed1 w ++ "m" : String) ≠ "" :=
      stringAppend_ne_empty_right _ _ (by decide)
    simp only [everythingMessage]
    rw [hpart]
    iterate 2 apply containsSubstr_append_left
    apply containsSubstr_append_right
    rw [if_neg hne]
    apply containsSubstr_append_right
    exact containsSubstr_self _
  · intro w hw hwz
    have hpart : waterPart h tu = "Water " ++ formatTemperatureForDisplay w tu := by
      simp [waterPart, truthyOpt, hw, hwz]
    have hne : ("Water " ++ formatTemperatureForDisplay w tu : String) ≠ "" := by
      intro hcontra
      have hd : ("Water " : String).data ++ (formatTemperatureForDisplay w tu).data = [] := by
        have := congrArg String.data hcontra
        rwa [stringData_append] at this
      exact absurd (List.append_eq_nil.mp hd).1 (by decide)
    simp only [everythingMessage]
    rw [hpart]
    apply containsSubstr_append_right
    rw [if_neg hne]
    apply containsSubstr_append_right
    exact containsSubstr_self _
  · intro hf
    simp [gustPart, hf]
  · intro hf
    simp [rainPart, hf]
  · intro hf
    simp [pressurePart, hf]
  · intro hf
    simp [visPart, hf]
  · intro hf
    simp [wavesPart, hf]
  · intro hf
    simp [waterPart, hf]

/-- The scenario sample with a nonzero gust value. -/
def demoHourGust : ForecastHour :=
  { demoHourC3 with windGusts10mKmh := some 35 }

/-- Concrete instance of `everythingMessage_field_presence`: a present
35 km/h gust shows up in the everything message. -/
theorem everythingMessage_field_presence_witness :
    containsSubstr ("Gust " ++ formatWindSpeed 35 WindUnit.kmh)
      (everythingMessage demoFmtTime demoBundle demoHourGust WindUnit.kmh
        TemperatureUnit.celsius) = true :=
  (everythingMessage_field_presence demoFmtTime demoBundle demoHourGust WindUnit.kmh
    TemperatureUnit.celsius).2.2.2.2.1 35 rfl (by norm_num)

/-! ## C8 — forecast merge alignment -/

/-- The insertion loop realizes last-occurrence lookup, shifted by the
starting index. -/
lemma buildMarineIndex_eq (l : List String) : ∀ (n : ℕ) (m : String → Option ℕ)
    (t : String),
    buildMarineIndex n l m t =
      match lastMatchIdx l t with
      | some j => some (n + j)
      | none => m t := by
  induction l with
  | nil => intro n m t; rfl
  | cons a l ih =>
    intro n m t
    show buildMarineIndex (n + 1) l (mapSet m a n) t = _
    rw [ih (n + 1) (mapSet m a n) t]
    cases hl : lastMatchIdx l t with
    | some j =>
      simp only [lastMatchIdx, hl]
      exact congrArg some (by omega)
    | none =>
      simp only [lastMatchIdx, hl, mapSet]
      by_cases hat : a = t
      · subst hat
        rw [if_pos rfl, if_pos rfl]
        simp
      · rw [if_neg (fun hh => hat hh.symm), if_neg hat]

/-- The finished JavaScript `Map` looks up the last matching index. -/
lemma marineIndex_eq (marineTime : List String) (t : String) :
    marineIndex marineTime t = lastMatchIdx marineTime t := by
  unfold marineIndex
  rw [buildMarineIndex_eq]
  cases hl : lastMatchIdx marineTime t with
  | some j => simp
  | none => rfl

/-- Lookup `lastMatchIdx` misses exactly the absent timestamps. -/
lemma lastMatchIdx_eq_none_iff (l : List String) (t : String) :
    lastMatchIdx l t = none ↔ t ∉ l := by
  induction l with
  | nil => simp [lastMatchIdx]
  | cons a l ih =>
    simp only [lastMatchIdx, List.mem_cons]
    cases hl : lastMatchIdx l t with
    | some j =>
      have ht : t ∈ l := by
        by_contra hc
        exact absurd (ih.mpr hc) (by simp [hl])
      simp [ht]
    | none =>
      by_cases hat : a = t
      · simp [hat]
      · have hta : t ≠ a := fun hh => hat hh.symm
        rw [if_neg hat]
        simp [hta, ih.mp hl]

/-- On a duplicate-free series, `lastMatchIdx` finds the unique index of
a present timestamp. -/
lemma lastMatchIdx_of_nodup (l : List String) (hnd : l.Nodup) (j : ℕ)
    (hj : j < l.length) :
    lastMatchIdx l (l.get ⟨j, hj⟩) = some j := by
  induction l generalizing j with
  | nil => exact absurd hj (by simp)
  | cons a l ih =>
    obtain ⟨hna, hnd'⟩ := List.nodup_cons.mp hnd
    cases j with
    | zero =>
      have hma : lastMatchIdx l a = none := (lastMatchIdx_eq_none_iff l a).mpr hna
      simp [lastMatchIdx, hma]
    | succ j =>
      have hj' : j < l.length := by simpa using hj
      have hih := ih hnd' j hj'
      rw [List.get_eq_getElem] at hih
      simp [lastMatchIdx, hih]

/-- C8: the merge produces one record per weather timestamp in order;
each record's four marine fields come from the marine entry whose
timestamp string equals the weather timestamp, and are all absent when
no marine entry carries that exact timestamp.  The hypotheses say the
marine response is a well-formed hourly series: parallel value arrays
and duplicate-free timestamps. -/
theorem fetchForecast_merge_aligned (time : List String)
    (windSpeed windGusts windDir temp hum clouds precProb precip pressure
      visibility uvIndex : List ℚ)
    (marineTime : List String)
    (waveHeight waveDirection wavePeriod waterTemp : List ℚ)
    (hnd : marineTime.Nodup) :
    (fetchForecastHours time windSpeed windGusts windDir temp hum clouds precProb
      precip pressure visibility uvIndex marineTime waveHeight waveDirection
      wavePeriod waterTemp).length = time.length ∧
    ∀ i (hi : i < time.length),
      ∃ ho : i < (fetchForecastHours time windSpeed windGusts windDir temp hum clouds
        precProb precip pressure visibility uvIndex marineTime waveHeight
        waveDirection wavePeriod waterTemp).length,
      ((fetchForecastHours time windSpeed windGusts windDir temp hum clouds precProb
        precip pressure visibility uvIndex marineTime waveHeight waveDirection
        wavePeriod waterTemp).get ⟨i, ho⟩).time = time.get ⟨i, hi⟩ ∧
      (∀ j (hj : j < marineTime.length),
        marineTime.get ⟨j, hj⟩ = time.get ⟨i, hi⟩ →
        ((fetchForecastHours time windSpeed windGusts windDir temp hum clouds precProb
          precip pressure visibility uvIndex marineTime waveHeight waveDirection
          wavePeriod waterTemp).get ⟨i, ho⟩).waveHeightM = waveHeight[j]? ∧
        ((fetchForecastHours time windSpeed windGusts windDir temp hum clouds precProb
          precip pressure visibility uvIndex marineTime waveHeight waveDirection
          wavePeriod waterTemp).get ⟨i, ho⟩).waveDirectionDeg = waveDirection[j]? ∧
        ((fetchForecastHours time windSpeed windGusts windDir temp hum clouds precProb
          precip pressure visibility uvIndex marineTime waveHeight waveDirection
          wavePeriod waterTemp).get ⟨i, ho⟩).wavePeriodS = wavePeriod[j]? ∧
        ((fetchForecastHours time windSpeed windGusts windDir temp hum clouds precProb
          precip pressure visibility uvIndex marineTime waveHeight waveDirection
          wavePeriod waterTemp).get ⟨i, ho⟩).waterTempC = waterTemp[j]?) ∧
      (time.get ⟨i, hi⟩ ∉ marineTime →
        ((fetchForecastHours time windSpeed windGusts windDir temp hum clouds precProb
          precip pressure visibility uvIndex marineTime waveHeight waveDirection
          wavePeriod waterTemp).get ⟨i, ho⟩).waveHeightM = none ∧
        ((fetchForecastHours time windSpeed windGusts windDir temp hum clouds precProb
          precip pressure visibility uvIndex marineTime waveHeight waveDirection
          wavePeriod waterTemp).get ⟨i, ho⟩).waveDirectionDeg = none ∧
        ((fetchForecastHours time windSpeed windGusts windDir temp hum clouds precProb
          precip pressure visibility uvIndex marineTime waveHeight waveDirection
          wavePeriod waterTemp).get ⟨i, ho⟩).wavePeriodS = none ∧
        ((fetchForecastHours time windSpeed windGusts windDir temp hum clouds precProb
          precip pressure visibility uvIndex marineTime waveHeight waveDirection
          wavePeriod waterTemp).get ⟨i, ho⟩).waterTempC = none) := by
  constructor
  · simp [fetchForecastHours]
  · intro i hi
    have ho : i < (fetchForecastHours time windSpeed windGusts windDir temp hum clouds
        precProb precip pressure visibility uvIndex marineTime waveHeight
        waveDirection wavePeriod waterTemp).length := by
      simpa [fetchForecastHours] using hi
    refine ⟨ho, ?_⟩
    have hget : (fetchForecastHours time windSpeed windGusts windDir temp hum clouds
        precProb precip pressure visibility uvIndex marineTime waveHeight
        waveDirection wavePeriod waterTemp).get ⟨i, ho⟩
        = (fun i t =>
            let mi := marineIndex marineTime t
            { time := t
              windSpeed10mKmh := (windSpeed[i]?).getD 0
              windGusts10mKmh := windGusts[i]?
              windDirection10mDeg := (windDir[i]?).getD 0
              temperatureC := (temp[i]?).getD 0
              humidityPct := (hum[i]?).getD 0
              cloudCoverPct := (clouds[i]?).getD 0
              precipitationProbabilityPct := precProb[i]?
              precipitationMm := precip[i]?
              pressureMslHpa := pressure[i]?
              visibilityM := visibility[i]?
              uvIndex := uvIndex[i]?
              waveHeightM := mi.bind (fun j => waveHeight[j]?)
              waveDirectionDeg := mi.bind (fun j => waveDirection[j]?)
              wavePeriodS := mi.bind (fun j => wavePeriod[j]?)
              waterTempC := mi.bind (fun j => waterTemp[j]?) : ForecastHour })
          i (time.get ⟨i, hi⟩) := by
      unfold fetchForecastHours
      exact List.get_mapIdx time _ i hi
    refine ⟨?_, ?_, ?_⟩
    · rw [hget]
    · intro j hj hjt
      have hlast : marineIndex marineTime (time.get ⟨i, hi⟩) = some j := by
        rw [marineIndex_eq, ← hjt]
        exact lastMatchIdx_of_nodup marineTime hnd j hj
      rw [hget]
      simp only [hlast]
      exact ⟨rfl, rfl, rfl, rfl⟩
    · intro hnotin
      have hlast : marineIndex marineTime (time.get ⟨i, hi⟩) = none := by
        rw [marineIndex_eq]
        exact (lastMatchIdx_eq_none_iff _ _).mpr hnotin
      rw [hget]
      simp only [hlast]
      exact ⟨rfl, rfl, rfl, rfl⟩

/-- Concrete instance of `fetchForecast_merge_aligned`: a two-hour
weather series merged with a one-hour marine series yields two records. -/
theorem fetchForecast_merge_aligned_witness :
    (fetchForecastHours ["2025-01-01T10:00", "2025-01-01T11:00"] [10, 20] [] [45, 90]
      [18, 19] [60, 55] [40, 30] [] [] [] [] [] ["2025-01-01T11:00"] [2] [180] [9]
      [17]).length = 2 :=
  (fetchForecast_merge_aligned ["2025-01-01T10:00", "2025-01-01T11:00"] [10, 20] []
    [45, 90] [18, 19] [60, 55] [40, 30] [] [] [] [] [] ["2025-01-01T11:00"] [2] [180]
    [9] [17] (by decide)).1
